import Mathlib

/-!
Shallow embedding of the movement/position/override core of the Dorfl blinds
firmware (`src/Dorfl.ino`).

Modelling conventions:
* `millis()` is modelled as a `Nat` argument `now`; all calls to `millis()`
  inside one handler observe the same `now` (the firmware reads the clock
  several times within a few microseconds).  Unsigned 32-bit subtraction
  `millis() - t` is modelled as truncated `Nat` subtraction, which agrees with
  the firmware for monotone time stamps and elapsed times below `2^32` ms.
* C `long` / `int` quantities (`blindPos`, command payloads, the tap counter)
  are modelled as `Int`; all values reachable in the firmware stay far inside
  the 32-bit range (payloads are truncated to at most 6 digit characters, so
  `|absPos * 1000| ≤ 999 999 000 < 2^31`), hence no overflow wrapping occurs.
* `digitalWrite(RELAY_Lx, ...)` becomes the boolean fields `relayL1`/`relayL2`
  (`true` = energized / HIGH).  Switch reads `digitalRead(SWITCH_Sx) == LOW`
  become boolean inputs `sw1`/`sw2` (`true` = pressed).
* `mqttClient.publish(outTopic, msg)` is recorded in the `published` log as the
  pair `(blindPos / 1000, manualMode)`; the firmware renders the second
  component as a trailing dot.  The `!offline && connected()` transport gate is
  an external collaborator and is not part of the core state machine.
* `startWifiManager(true)` (the enter-setup request to the provisioning
  collaborator) is modelled by `startWifiManagerOnDemand`, which counts one
  request in `setupRequests` unless the portal is already running (the early
  return at the top of `startWifiManager`).  The `wifiManagerSetupRunning`
  flag itself is set by the external WiFiManager AP callback.
-/

namespace Dorfl

/-- GPIO number of switch S1 (`#define SWITCH_S1 4`). -/
def SWITCH_S1 : Nat := 4

/-- GPIO number of switch S2 (`#define SWITCH_S2 5`). -/
def SWITCH_S2 : Nat := 5

/-- Debounce guard (`#define MANUAL_LOCK_MIN_DELAY_MS 200`). -/
def MANUAL_LOCK_MIN_DELAY_MS : Nat := 200

/-- Quick-tap window (`#define MANUAL_LOCK_MAX_DELAY_MS 500`). -/
def MANUAL_LOCK_MAX_DELAY_MS : Nat := 500

/-- Tap count that triggers setup (`#define MANUAL_SETUP_COUNTER 5`). -/
def MANUAL_SETUP_COUNTER : Int := 5

/-- Configuration loaded from persisted storage at boot; immutable during
normal operation (globals `blindMaxPos`, `blindInvertZero`, `blindInvertSwitch`,
`blindDisableManualLock`). -/
structure Config where
  blindMaxPos : Nat
  blindInvertZero : Bool
  blindInvertSwitch : Bool
  blindDisableManualLock : Bool
deriving DecidableEq, Repr

/-- Mutable globals of the firmware core, plus the relay output pins and the
observable logs (status publishes and enter-setup requests). -/
structure State where
  blindPos : Int
  manualMode : Bool
  manualLocked : Bool
  manualLockActivatorTime : Nat
  manualLockActivatorSwitch : Nat
  manualSetupModeCounter : Int
  movementStartTime : Nat
  movementTimeout : Nat
  movementL1 : Bool
  movementProgress : Bool
  relayL1 : Bool
  relayL2 : Bool
  wifiManagerSetupRunning : Bool
  published : List (Int × Bool)
  setupRequests : Nat
deriving DecidableEq, Repr

/-- `mqttCommunicate()`: publish `blindPos / 1000`, with a trailing dot iff
`manualMode` is set.  The log records the pair `(value, dot)`. -/
def mqttCommunicate (s : State) : State :=
  { s with published := (s.blindPos / 1000, s.manualMode) :: s.published }

/-- Signed position delta applied in `updateBlindPos()`: direction of the last
movement and the `blindInvertZero` flag determine the sign of `moved`. -/
def movedPos (cfg : Config) (moved : Nat) (s : State) : Int :=
  if s.movementL1 then
    if cfg.blindInvertZero then s.blindPos + moved else s.blindPos - moved
  else
    if cfg.blindInvertZero then s.blindPos - moved else s.blindPos + moved

/-- Clamp of `updateBlindPos()`: `if (blindPos < 0) blindPos = 0; else if
(blindPos > blindMaxPos) blindPos = blindMaxPos;`. -/
def clampPos (cfg : Config) (p : Int) : Int :=
  if p < 0 then 0 else if p > (cfg.blindMaxPos : Int) then (cfg.blindMaxPos : Int) else p

/-- `updateBlindPos()`: recompute the estimate from the elapsed time
`millis() - movementStartTime`, clamp it into `[0, blindMaxPos]` and publish. -/
def updateBlindPos (cfg : Config) (now : Nat) (s : State) : State :=
  mqttCommunicate
    { s with blindPos := clampPos cfg (movedPos cfg (now - s.movementStartTime) s) }

/-- `stopL1()`: de-energize relay L1; if an L1 movement was in progress, end it
and recompute the position. -/
def stopL1 (cfg : Config) (now : Nat) (s : State) : State :=
  if s.movementProgress && s.movementL1 then
    updateBlindPos cfg now { s with relayL1 := false, movementProgress := false }
  else
    { s with relayL1 := false }

/-- `stopL2()`: de-energize relay L2; if an L2 movement was in progress, end it
and recompute the position. -/
def stopL2 (cfg : Config) (now : Nat) (s : State) : State :=
  if s.movementProgress && !s.movementL1 then
    updateBlindPos cfg now { s with relayL2 := false, movementProgress := false }
  else
    { s with relayL2 := false }

/-- `startL1(timeout)`: first stop L2 (both relays must never be closed at the
same time), then energize L1 and arm the deadline (`timeout == 0` means a full
travel of `blindMaxPos`). -/
def startL1 (cfg : Config) (now : Nat) (timeout : Nat) (s : State) : State :=
  { stopL2 cfg now s with
      relayL1 := true
      movementProgress := true
      movementL1 := true
      movementStartTime := now
      movementTimeout := if timeout = 0 then cfg.blindMaxPos else timeout }

/-- `startL2(timeout)`: first stop L1, then energize L2 and arm the deadline. -/
def startL2 (cfg : Config) (now : Nat) (timeout : Nat) (s : State) : State :=
  { stopL1 cfg now s with
      relayL2 := true
      movementProgress := true
      movementL1 := false
      movementStartTime := now
      movementTimeout := if timeout = 0 then cfg.blindMaxPos else timeout }

/-- `startWifiManager(true)`: the on-demand enter-setup request.  The guard
`if (wifiManagerSetupRunning) return;` makes the call a no-op while the portal
runs; otherwise one request to the provisioning collaborator is issued. -/
def startWifiManagerOnDemand (s : State) : State :=
  if s.wifiManagerSetupRunning then s else { s with setupRequests := s.setupRequests + 1 }

/-- `autoMoveToPos(newPos)`: remote move request; refused while `manualMode`
is active, otherwise drives the relay given by the sign of
`deltaMove = newPos - blindPos` (zero delta is a no-op). -/
def autoMoveToPos (cfg : Config) (now : Nat) (newPos : Int) (s : State) : State :=
  if s.manualMode then s
  else
    if cfg.blindInvertZero then
      if newPos - s.blindPos > 0 then startL1 cfg now (newPos - s.blindPos).toNat s
      else if newPos - s.blindPos < 0 then startL2 cfg now (-(newPos - s.blindPos)).toNat s
      else s
    else
      if newPos - s.blindPos > 0 then startL2 cfg now (newPos - s.blindPos).toNat s
      else if newPos - s.blindPos < 0 then startL1 cfg now (-(newPos - s.blindPos)).toNat s
      else s

/-- `movementLoop()`: if a movement is in progress and its deadline has
elapsed, stop both relays. -/
def movementTick (cfg : Config) (now : Nat) (s : State) : State :=
  if s.movementProgress ∧ now - s.movementStartTime ≥ s.movementTimeout then
    stopL2 cfg now (stopL1 cfg now s)
  else s

/-- Gesture-activator reset in the S1 press branch:
`if (manualLockActivatorSwitch != SWITCH_S1) manualSetupModeCounter = 0;`. -/
def pressCounterResetS1 (s : State) : State :=
  if s.manualLockActivatorSwitch ≠ SWITCH_S1 then { s with manualSetupModeCounter := 0 } else s

/-- Gesture-activator reset in the S2 press branch:
`if (manualLockActivatorSwitch == SWITCH_S1) manualSetupModeCounter = 0;`. -/
def pressCounterResetS2 (s : State) : State :=
  if s.manualLockActivatorSwitch = SWITCH_S1 then { s with manualSetupModeCounter := 0 } else s

/-- Double-press lock gesture check (identical in both press branches): with
manual lock enabled, not yet locked, the press within `MAX_DELAY` of the last
activator timestamp and exactly one recorded tap, set the persistent lock and
publish (with the manual dot). -/
def pressLock (cfg : Config) (d : Nat) (s : State) : State :=
  if ¬cfg.blindDisableManualLock ∧ s.manualLocked = false ∧
      d < MANUAL_LOCK_MAX_DELAY_MS ∧ s.manualSetupModeCounter = 1 then
    mqttCommunicate { s with manualLocked := true, manualMode := true }
  else s

/-- Relay mapping of an S1 press (`blindInvertSwitch` swaps directions); the
drive is skipped only when the mapped direction is already running. -/
def pressStartRelayS1 (cfg : Config) (now : Nat) (s : State) : State :=
  if cfg.blindInvertSwitch then
    if s.movementProgress = false ∨ s.movementL1 = true then startL2 cfg now 0 s else s
  else
    if s.movementProgress = false ∨ s.movementL1 = false then startL1 cfg now 0 s else s

/-- Relay mapping of an S2 press. -/
def pressStartRelayS2 (cfg : Config) (now : Nat) (s : State) : State :=
  if cfg.blindInvertSwitch then
    if s.movementProgress = false ∨ s.movementL1 = false then startL1 cfg now 0 s else s
  else
    if s.movementProgress = false ∨ s.movementL1 = true then startL2 cfg now 0 s else s

/-- Drive part of the S1 press branch (`if (!manualLocked) { ... }`): record
the activator switch; on a fresh press (manual mode was off) set manual mode,
stamp the activator time, publish, and drive the mapped relay. -/
def pressDriveS1 (cfg : Config) (now : Nat) (s : State) : State :=
  if s.manualLocked then s
  else if s.manualMode then { s with manualLockActivatorSwitch := SWITCH_S1 }
  else
    pressStartRelayS1 cfg now
      (mqttCommunicate
        { s with manualLockActivatorSwitch := SWITCH_S1, manualMode := true,
                 manualLockActivatorTime := now })

/-- Drive part of the S2 press branch. -/
def pressDriveS2 (cfg : Config) (now : Nat) (s : State) : State :=
  if s.manualLocked then s
  else if s.manualMode then { s with manualLockActivatorSwitch := SWITCH_S2 }
  else
    pressStartRelayS2 cfg now
      (mqttCommunicate
        { s with manualLockActivatorSwitch := SWITCH_S2, manualMode := true,
                 manualLockActivatorTime := now })

/-- Full S1 press branch of `gpioLoop()` (`d` is `millis() -
manualLockActivatorTime`). -/
def pressTickS1 (cfg : Config) (now d : Nat) (s : State) : State :=
  pressDriveS1 cfg now (pressLock cfg d (pressCounterResetS1 s))

/-- Full S2 press branch of `gpioLoop()`. -/
def pressTickS2 (cfg : Config) (now d : Nat) (s : State) : State :=
  pressDriveS2 cfg now (pressLock cfg d (pressCounterResetS2 s))

/-- Setup-gesture check on release: `if (++manualSetupModeCounter ==
MANUAL_SETUP_COUNTER) startWifiManager(true);` (the increment is done by the
caller). -/
def releaseSetupCheck (s : State) : State :=
  if s.manualSetupModeCounter = MANUAL_SETUP_COUNTER then startWifiManagerOnDemand s else s

/-- Tap counting on release: a release within `MAX_DELAY` of the activator
timestamp increments the counter (and may fire the setup gesture); a slower
release resets the counter to 0. -/
def releaseCount (d : Nat) (s : State) : State :=
  if d < MANUAL_LOCK_MAX_DELAY_MS then
    releaseSetupCheck { s with manualSetupModeCounter := s.manualSetupModeCounter + 1 }
  else { s with manualSetupModeCounter := 0 }

/-- Tail of the release branch: a locked release only publishes (manual mode
is already cleared, so without the dot); an unlocked release stops a running
movement (which publishes via `updateBlindPos`) or publishes directly. -/
def releaseFinish (cfg : Config) (now : Nat) (s : State) : State :=
  if s.manualLocked then mqttCommunicate s
  else if s.movementProgress then stopL2 cfg now (stopL1 cfg now s) else mqttCommunicate s

/-- Release branch of `gpioLoop()` (neither switch pressed): when manual mode
was active, count the tap, clear manual mode, stamp the activator time and
finish; in all cases clear the lock flag. -/
def releaseTick (cfg : Config) (now d : Nat) (s : State) : State :=
  { (if s.manualMode then
        releaseFinish cfg now
          { releaseCount d s with manualMode := false, manualLockActivatorTime := now }
      else s) with
    manualLocked := false }

/-- One pass of the switch-processing part of `gpioLoop()` (the pairing BUTTON
is not pressed): the whole block is debounce-guarded by
`manualActivatorDelay > MIN_DELAY`; S1 is checked before S2. -/
def gpioTick (cfg : Config) (now : Nat) (sw1 sw2 : Bool) (s : State) : State :=
  if now - s.manualLockActivatorTime > MANUAL_LOCK_MIN_DELAY_MS then
    if sw1 then pressTickS1 cfg now (now - s.manualLockActivatorTime) s
    else if sw2 then pressTickS2 cfg now (now - s.manualLockActivatorTime) s
    else releaseTick cfg now (now - s.manualLockActivatorTime) s
  else s

/-- Digit-accumulating loop of C `atoi`: consume decimal digits, stop at the
first non-digit. -/
def atoiDigits : List Char → Nat → Nat
  | [], acc => acc
  | c :: cs, acc => if c.isDigit then atoiDigits cs (10 * acc + (c.toNat - 48)) else acc

/-- C whitespace as skipped by `atoi` (`isspace`). -/
def isSpaceChar (c : Char) : Bool :=
  c == ' ' || c == '\t' || c == '\n' || c == '\r' || c == Char.ofNat 11 || c == Char.ofNat 12

/-- Sign dispatch of C `atoi` after whitespace skipping: an optional single
sign character, then digits. -/
def atoiSigned : List Char → Int
  | [] => 0
  | c :: r =>
    if c = '-' then -(atoiDigits r 0 : Int)
    else if c = '+' then (atoiDigits r 0 : Int)
    else (atoiDigits (c :: r) 0 : Int)

/-- C `atoi`: skip whitespace, read an optional sign, then digits; any string
without leading digits parses to 0.  Payloads are at most 6 characters after
the command prefix, so no `int` overflow can occur. -/
def atoiModel (cs : List Char) : Int :=
  atoiSigned (cs.dropWhile isSpaceChar)

/-- Command prefix `"mva"`. -/
def CMD_MOVE_ABS : List Char := ['m', 'v', 'a']

/-- Command prefix `"mvr"`. -/
def CMD_MOVE_REL : List Char := ['m', 'v', 'r']

/-- Command prefix `"set"`. -/
def CMD_SETUP : List Char := ['s', 'e', 't']

/-- Cancellation of an in-progress non-manual movement at the top of the `mva`
and `mvr` branches of `mqttCallback`. -/
def remoteStop (cfg : Config) (now : Nat) (s : State) : State :=
  if s.movementProgress ∧ s.manualMode = false then stopL2 cfg now (stopL1 cfg now s) else s

/-- `mqttCallback`: the payload is truncated to 9 characters (`strncpy` into
`payloadCopy[10]`), matched against the three command prefixes, and the numeric
suffix (`cmd.substring(3)`) is parsed with `atoi`.  Note that for `mvr` the
firmware reads `blindPos` after the cancellation stop. -/
def mqttCallback (cfg : Config) (now : Nat) (payload : List Char) (s : State) : State :=
  if (payload.take 9).take 3 = CMD_SETUP then
    startWifiManagerOnDemand s
  else if (payload.take 9).take 3 = CMD_MOVE_ABS then
    autoMoveToPos cfg now (atoiModel ((payload.take 9).drop 3) * 1000) (remoteStop cfg now s)
  else if (payload.take 9).take 3 = CMD_MOVE_REL then
    autoMoveToPos cfg now
      ((remoteStop cfg now s).blindPos + atoiModel ((payload.take 9).drop 3) * 1000)
      (remoteStop cfg now s)
  else s

/-- Boot state from `setup()`: all globals zero-initialized, `manualLocked`
sampled from the switches, both relays driven LOW by the initial
`stopL1(); stopL2();` (which do not touch the position since no movement is in
progress). -/
def initState (sw1 sw2 : Bool) : State where
  blindPos := 0
  manualMode := false
  manualLocked := sw1 || sw2
  manualLockActivatorTime := 0
  manualLockActivatorSwitch := 0
  manualSetupModeCounter := 0
  movementStartTime := 0
  movementTimeout := 0
  movementL1 := false
  movementProgress := false
  relayL1 := false
  relayL2 := false
  wifiManagerSetupRunning := false
  published := []
  setupRequests := 0

/-- Reachable states of the controller: boot, then any interleaving of switch
polls, movement-timeout polls, inbound command messages, presses of the
pairing button, and the external portal-started callback. -/
inductive Reach (cfg : Config) : State → Prop where
  | boot (sw1 sw2 : Bool) : Reach cfg (initState sw1 sw2)
  | gpio (now : Nat) (sw1 sw2 : Bool) {s : State} :
      Reach cfg s → Reach cfg (gpioTick cfg now sw1 sw2 s)
  | motion (now : Nat) {s : State} : Reach cfg s → Reach cfg (movementTick cfg now s)
  | mqtt (now : Nat) (payload : List Char) {s : State} :
      Reach cfg s → Reach cfg (mqttCallback cfg now payload s)
  | pairingButton {s : State} : Reach cfg s → Reach cfg (startWifiManagerOnDemand s)
  | portalStarted {s : State} : Reach cfg s → Reach cfg { s with wifiManagerSetupRunning := true }

/-- Default configuration of the firmware (`blindMaxPos = 60000` ms, no
inversions, manual lock enabled). -/
def cfg0 : Config where
  blindMaxPos := 60000
  blindInvertZero := false
  blindInvertSwitch := false
  blindDisableManualLock := false

/-- Head test of `malformedNum`: after whitespace, either nothing is left, or
the first character is neither a digit nor a sign, or a sign is followed by a
non-digit (or nothing) — precisely the inputs on which C `atoi` consumes no
digit at all. -/
def malformedHead : List Char → Bool
  | [] => true
  | c :: r =>
    if c = '-' ∨ c = '+' then
      match r with
      | [] => true
      | c2 :: _ => !c2.isDigit
    else !c.isDigit

/-- A numeric command payload is malformed when `atoi` finds no digit to
consume. -/
def malformedNum (cs : List Char) : Bool :=
  malformedHead (cs.dropWhile isSpaceChar)

/-- Idle non-override state at position 30000 ms, used by the C5
counterexample. -/
def c5idle : State := { initState false false with blindPos := 30000 }

/-- State with a remote movement in progress, used by the C5 counterexample:
the reachable state right after `mva61` was processed at boot (L2 energized
toward the maximum, deadline 61000 ms). -/
def c5moving : State :=
  mqttCallback cfg0 0 (CMD_MOVE_ABS ++ ['6', '1']) (initState false false)

/-- Trace for the C8 counterexample: press S1 at 300 ms, release at 600 ms
(quick tap, counter becomes 1), press S1 again at 1400 ms (800 ms after the
release, so no lock gesture), release at 1700 ms. -/
def c8state1 : State := gpioTick cfg0 300 true false (initState false false)

/-- Second step of the C8 counterexample trace (state after the release at
600 ms). -/
def c8state2 : State := gpioTick cfg0 600 false false c8state1

/-- Third step of the C8 counterexample trace (state after the press at
1400 ms). -/
def c8state3 : State := gpioTick cfg0 1400 true false c8state2

/-- Final state of the C8 counterexample trace (after the release at
1700 ms). -/
def c8state4 : State := gpioTick cfg0 1700 false false c8state3

/-- Configuration with the manual lock disabled, used by the C4 trace (so that
the second quick press drives the relay like any other tap instead of
triggering the lock gesture). -/
def cfgNoLock : Config := { cfg0 with blindDisableManualLock := true }

/-- Five quick taps on S1: presses at 300/900/1500/2100/2700 ms, releases at
600/1200/1800/2400/3000 ms — every release-to-press gap is 300 ms (< 500 ms)
and every hold is 300 ms (< 500 ms). -/
def c4final : State :=
  gpioTick cfgNoLock 3000 false false (gpioTick cfgNoLock 2700 true false
  (gpioTick cfgNoLock 2400 false false (gpioTick cfgNoLock 2100 true false
  (gpioTick cfgNoLock 1800 false false (gpioTick cfgNoLock 1500 true false
  (gpioTick cfgNoLock 1200 false false (gpioTick cfgNoLock 900 true false
  (gpioTick cfgNoLock 600 false false (gpioTick cfgNoLock 300 true false
  (initState false false))))))))))

/-! ### Relay effect lemmas -/

theorem stopL1_relayL1 (cfg : Config) (now : Nat) (s : State) :
    (stopL1 cfg now s).relayL1 = false := by
  unfold stopL1
  split <;> rfl

theorem stopL1_relayL2 (cfg : Config) (now : Nat) (s : State) :
    (stopL1 cfg now s).relayL2 = s.relayL2 := by
  unfold stopL1
  split <;> rfl

theorem stopL2_relayL2 (cfg : Config) (now : Nat) (s : State) :
    (stopL2 cfg now s).relayL2 = false := by
  unfold stopL2
  split <;> rfl

theorem stopL2_relayL1 (cfg : Config) (now : Nat) (s : State) :
    (stopL2 cfg now s).relayL1 = s.relayL1 := by
  unfold stopL2
  split <;> rfl

theorem startL1_relayL1 (cfg : Config) (now t : Nat) (s : State) :
    (startL1 cfg now t s).relayL1 = true := rfl

theorem startL1_relayL2 (cfg : Config) (now t : Nat) (s : State) :
    (startL1 cfg now t s).relayL2 = false := stopL2_relayL2 cfg now s

theorem startL2_relayL2 (cfg : Config) (now t : Nat) (s : State) :
    (startL2 cfg now t s).relayL2 = true := rfl

theorem startL2_relayL1 (cfg : Config) (now t : Nat) (s : State) :
    (startL2 cfg now t s).relayL1 = false := stopL1_relayL1 cfg now s

/-! ### Combined reachability invariant

`Inv` packages the three inductive invariants of the controller:
relay mutual exclusion, the position clamp, and the gesture bookkeeping
(the tap counter is non-negative and, whenever it is non-zero or a manual
override is active, a real switch is recorded as the gesture activator). -/

/-- Inductive invariant of the controller state. -/
def Inv (cfg : Config) (s : State) : Prop :=
  (s.relayL1 = false ∨ s.relayL2 = false) ∧
  (0 ≤ s.blindPos ∧ s.blindPos ≤ (cfg.blindMaxPos : Int)) ∧
  0 ≤ s.manualSetupModeCounter ∧
  (s.manualSetupModeCounter ≠ 0 →
    s.manualLockActivatorSwitch = SWITCH_S1 ∨ s.manualLockActivatorSwitch = SWITCH_S2) ∧
  (s.manualMode = true →
    s.manualLockActivatorSwitch = SWITCH_S1 ∨ s.manualLockActivatorSwitch = SWITCH_S2)

theorem clampPos_bounds (cfg : Config) (p : Int) :
    0 ≤ clampPos cfg p ∧ clampPos cfg p ≤ (cfg.blindMaxPos : Int) := by
  unfold clampPos
  split
  · omega
  · split <;> omega

theorem inv_mqttCommunicate {cfg : Config} {s : State} (h : Inv cfg s) :
    Inv cfg (mqttCommunicate s) := h

theorem inv_updateBlindPos (cfg : Config) (now : Nat) {s : State} (h : Inv cfg s) :
    Inv cfg (updateBlindPos cfg now s) :=
  ⟨h.1, clampPos_bounds cfg _, h.2.2⟩

theorem inv_stopL1 (cfg : Config) (now : Nat) {s : State} (h : Inv cfg s) :
    Inv cfg (stopL1 cfg now s) := by
  unfold stopL1
  split
  · exact inv_updateBlindPos cfg now ⟨Or.inl rfl, h.2⟩
  · exact ⟨Or.inl rfl, h.2⟩

theorem inv_stopL2 (cfg : Config) (now : Nat) {s : State} (h : Inv cfg s) :
    Inv cfg (stopL2 cfg now s) := by
  unfold stopL2
  split
  · exact inv_updateBlindPos cfg now ⟨Or.inr rfl, h.2⟩
  · exact ⟨Or.inr rfl, h.2⟩

theorem inv_startL1 (cfg : Config) (now t : Nat) {s : State} (h : Inv cfg s) :
    Inv cfg (startL1 cfg now t s) :=
  ⟨Or.inr (stopL2_relayL2 cfg now s), (inv_stopL2 cfg now h).2⟩

theorem inv_startL2 (cfg : Config) (now t : Nat) {s : State} (h : Inv cfg s) :
    Inv cfg (startL2 cfg now t s) :=
  ⟨Or.inl (stopL1_relayL1 cfg now s), (inv_stopL1 cfg now h).2⟩

theorem inv_startWifiManagerOnDemand {cfg : Config} {s : State} (h : Inv cfg s) :
    Inv cfg (startWifiManagerOnDemand s) := by
  unfold startWifiManagerOnDemand
  split
  · exact h
  · exact h

theorem inv_autoMoveToPos (cfg : Config) (now : Nat) (p : Int) {s : State} (h : Inv cfg s) :
    Inv cfg (autoMoveToPos cfg now p s) := by
  unfold autoMoveToPos
  split
  · exact h
  · split
    · split
      · exact inv_startL1 cfg now _ h
      · split
        · exact inv_startL2 cfg now _ h
        · exact h
    · split
      · exact inv_startL2 cfg now _ h
      · split
        · exact inv_startL1 cfg now _ h
        · exact h

theorem inv_movementTick (cfg : Config) (now : Nat) {s : State} (h : Inv cfg s) :
    Inv cfg (movementTick cfg now s) := by
  unfold movementTick
  split
  · exact inv_stopL2 cfg now (inv_stopL1 cfg now h)
  · exact h

theorem inv_remoteStop (cfg : Config) (now : Nat) {s : State} (h : Inv cfg s) :
    Inv cfg (remoteStop cfg now s) := by
  unfold remoteStop
  split
  · exact inv_stopL2 cfg now (inv_stopL1 cfg now h)
  · exact h

theorem inv_mqttCallback (cfg : Config) (now : Nat) (payload : List Char) {s : State}
    (h : Inv cfg s) : Inv cfg (mqttCallback cfg now payload s) := by
  unfold mqttCallback
  split
  · exact inv_startWifiManagerOnDemand h
  · split
    · exact inv_autoMoveToPos cfg now _ (inv_remoteStop cfg now h)
    · split
      · exact inv_autoMoveToPos cfg now _ (inv_remoteStop cfg now h)
      · exact h

theorem inv_pressCounterResetS1 {cfg : Config} {s : State} (h : Inv cfg s) :
    Inv cfg (pressCounterResetS1 s) := by
  unfold pressCounterResetS1
  split
  · exact ⟨h.1, h.2.1, le_refl 0, fun hc => absurd rfl hc, h.2.2.2.2⟩
  · exact h

theorem inv_pressCounterResetS2 {cfg : Config} {s : State} (h : Inv cfg s) :
    Inv cfg (pressCounterResetS2 s) := by
  unfold pressCounterResetS2
  split
  · exact ⟨h.1, h.2.1, le_refl 0, fun hc => absurd rfl hc, h.2.2.2.2⟩
  · exact h

theorem inv_pressLock (cfg : Config) (d : Nat) {s : State} (h : Inv cfg s) :
    Inv cfg (pressLock cfg d s) := by
  unfold pressLock
  split
  · next hc =>
    exact ⟨h.1, h.2.1, h.2.2.1, h.2.2.2.1,
      fun _ => h.2.2.2.1 (by rw [hc.2.2.2]; decide)⟩
  · exact h

theorem inv_pressStartRelayS1 (cfg : Config) (now : Nat) {s : State} (h : Inv cfg s) :
    Inv cfg (pressStartRelayS1 cfg now s) := by
  unfold pressStartRelayS1
  split
  · split
    · exact inv_startL2 cfg now _ h
    · exact h
  · split
    · exact inv_startL1 cfg now _ h
    · exact h

theorem inv_pressStartRelayS2 (cfg : Config) (now : Nat) {s : State} (h : Inv cfg s) :
    Inv cfg (pressStartRelayS2 cfg now s) := by
  unfold pressStartRelayS2
  split
  · split
    · exact inv_startL1 cfg now _ h
    · exact h
  · split
    · exact inv_startL2 cfg now _ h
    · exact h

theorem inv_pressDriveS1 (cfg : Config) (now : Nat) {s : State} (h : Inv cfg s) :
    Inv cfg (pressDriveS1 cfg now s) := by
  unfold pressDriveS1
  split
  · exact h
  · split
    · exact ⟨h.1, h.2.1, h.2.2.1, fun _ => Or.inl rfl, fun _ => Or.inl rfl⟩
    · exact inv_pressStartRelayS1 cfg now
        ⟨h.1, h.2.1, h.2.2.1, fun _ => Or.inl rfl, fun _ => Or.inl rfl⟩

theorem inv_pressDriveS2 (cfg : Config) (now : Nat) {s : State} (h : Inv cfg s) :
    Inv cfg (pressDriveS2 cfg now s) := by
  unfold pressDriveS2
  split
  · exact h
  · split
    · exact ⟨h.1, h.2.1, h.2.2.1, fun _ => Or.inr rfl, fun _ => Or.inr rfl⟩
    · exact inv_pressStartRelayS2 cfg now
        ⟨h.1, h.2.1, h.2.2.1, fun _ => Or.inr rfl, fun _ => Or.inr rfl⟩

theorem inv_pressTickS1 (cfg : Config) (now d : Nat) {s : State} (h : Inv cfg s) :
    Inv cfg (pressTickS1 cfg now d s) :=
  inv_pressDriveS1 cfg now (inv_pressLock cfg d (inv_pressCounterResetS1 h))

theorem inv_pressTickS2 (cfg : Config) (now d : Nat) {s : State} (h : Inv cfg s) :
    Inv cfg (pressTickS2 cfg now d s) :=
  inv_pressDriveS2 cfg now (inv_pressLock cfg d (inv_pressCounterResetS2 h))

theorem inv_releaseSetupCheck {cfg : Config} {s : State} (h : Inv cfg s) :
    Inv cfg (releaseSetupCheck s) := by
  unfold releaseSetupCheck
  split
  · exact inv_startWifiManagerOnDemand h
  · exact h

theorem inv_releaseCount (cfg : Config) (d : Nat) {s : State} (h : Inv cfg s)
    (hm : s.manualMode = true) : Inv cfg (releaseCount d s) := by
  unfold releaseCount
  split
  · exact inv_releaseSetupCheck
      ⟨h.1, h.2.1,
        show 0 ≤ s.manualSetupModeCounter + 1 by have := h.2.2.1; omega,
        fun _ => h.2.2.2.2 hm, fun _ => h.2.2.2.2 hm⟩
  · exact ⟨h.1, h.2.1, le_refl 0, fun hc => absurd rfl hc, h.2.2.2.2⟩

theorem inv_releaseFinish (cfg : Config) (now : Nat) {s : State} (h : Inv cfg s) :
    Inv cfg (releaseFinish cfg now s) := by
  unfold releaseFinish
  split
  · exact h
  · split
    · exact inv_stopL2 cfg now (inv_stopL1 cfg now h)
    · exact h

theorem inv_releaseTick (cfg : Config) (now d : Nat) {s : State} (h : Inv cfg s) :
    Inv cfg (releaseTick cfg now d s) := by
  unfold releaseTick
  split
  · next hm =>
    have h1 := inv_releaseCount cfg d h hm
    have h2 : Inv cfg
        { releaseCount d s with manualMode := false, manualLockActivatorTime := now } :=
      ⟨h1.1, h1.2.1, h1.2.2.1, h1.2.2.2.1, fun hmode => Bool.noConfusion hmode⟩
    exact (inv_releaseFinish cfg now h2 : Inv cfg _)
  · exact h

theorem inv_gpioTick (cfg : Config) (now : Nat) (sw1 sw2 : Bool) {s : State}
    (h : Inv cfg s) : Inv cfg (gpioTick cfg now sw1 sw2 s) := by
  unfold gpioTick
  split
  · split
    · exact inv_pressTickS1 cfg now _ h
    · split
      · exact inv_pressTickS2 cfg now _ h
      · exact inv_releaseTick cfg now _ h
  · exact h

theorem inv_initState (cfg : Config) (sw1 sw2 : Bool) : Inv cfg (initState sw1 sw2) :=
  ⟨Or.inl rfl, ⟨le_refl 0, Int.natCast_nonneg _⟩, le_refl 0,
    fun hc => absurd rfl hc, fun hm => Bool.noConfusion hm⟩

/-- Every reachable state satisfies the combined invariant. -/
theorem reach_inv {cfg : Config} {s : State} (h : Reach cfg s) : Inv cfg s := by
  induction h with
  | boot sw1 sw2 => exact inv_initState cfg sw1 sw2
  | gpio now sw1 sw2 _ ih => exact inv_gpioTick cfg now sw1 sw2 ih
  | motion now _ ih => exact inv_movementTick cfg now ih
  | mqtt now payload _ ih => exact inv_mqttCallback cfg now payload ih
  | pairingButton _ ih => exact inv_startWifiManagerOnDemand ih
  | portalStarted _ ih => exact ⟨ih.1, ih.2.1, ih.2.2.1, ih.2.2.2.1, ih.2.2.2.2⟩

/-! ### Idle-direction stops are pure relay writes -/

theorem stopL1_not_active (cfg : Config) (now : Nat) (s : State)
    (h : ¬(s.movementProgress = true ∧ s.movementL1 = true)) :
    stopL1 cfg now s = { s with relayL1 := false } := by
  unfold stopL1
  rw [if_neg (by simpa [Bool.and_eq_true] using h)]

theorem stopL2_not_active (cfg : Config) (now : Nat) (s : State)
    (h : ¬(s.movementProgress = true ∧ s.movementL1 = false)) :
    stopL2 cfg now s = { s with relayL2 := false } := by
  unfold stopL2
  rw [if_neg (by simpa [Bool.and_eq_true, Bool.not_eq_true'] using h)]

/-! ### Frame lemmas: which fields the primitive operations leave alone -/

theorem stopL1_counter (cfg : Config) (now : Nat) (s : State) :
    (stopL1 cfg now s).manualSetupModeCounter = s.manualSetupModeCounter := by
  unfold stopL1
  split <;> rfl

theorem stopL2_counter (cfg : Config) (now : Nat) (s : State) :
    (stopL2 cfg now s).manualSetupModeCounter = s.manualSetupModeCounter := by
  unfold stopL2
  split <;> rfl

theorem startL1_counter (cfg : Config) (now t : Nat) (s : State) :
    (startL1 cfg now t s).manualSetupModeCounter = s.manualSetupModeCounter :=
  stopL2_counter cfg now s

theorem startL2_counter (cfg : Config) (now t : Nat) (s : State) :
    (startL2 cfg now t s).manualSetupModeCounter = s.manualSetupModeCounter :=
  stopL1_counter cfg now s

theorem startWifiManagerOnDemand_counter (s : State) :
    (startWifiManagerOnDemand s).manualSetupModeCounter = s.manualSetupModeCounter := by
  unfold startWifiManagerOnDemand
  split <;> rfl

theorem stopL1_requests (cfg : Config) (now : Nat) (s : State) :
    (stopL1 cfg now s).setupRequests = s.setupRequests := by
  unfold stopL1
  split <;> rfl

theorem stopL2_requests (cfg : Config) (now : Nat) (s : State) :
    (stopL2 cfg now s).setupRequests = s.setupRequests := by
  unfold stopL2
  split <;> rfl

theorem pressStartRelayS1_counter (cfg : Config) (now : Nat) (s : State) :
    (pressStartRelayS1 cfg now s).manualSetupModeCounter = s.manualSetupModeCounter := by
  unfold pressStartRelayS1
  split
  · split
    · exact startL2_counter cfg now 0 s
    · rfl
  · split
    · exact startL1_counter cfg now 0 s
    · rfl

theorem pressStartRelayS2_counter (cfg : Config) (now : Nat) (s : State) :
    (pressStartRelayS2 cfg now s).manualSetupModeCounter = s.manualSetupModeCounter := by
  unfold pressStartRelayS2
  split
  · split
    · exact startL1_counter cfg now 0 s
    · rfl
  · split
    · exact startL2_counter cfg now 0 s
    · rfl

theorem pressDriveS1_counter (cfg : Config) (now : Nat) (s : State) :
    (pressDriveS1 cfg now s).manualSetupModeCounter = s.manualSetupModeCounter := by
  unfold pressDriveS1
  split
  · rfl
  · split
    · rfl
    · rw [pressStartRelayS1_counter]
      rfl

theorem pressDriveS2_counter (cfg : Config) (now : Nat) (s : State) :
    (pressDriveS2 cfg now s).manualSetupModeCounter = s.manualSetupModeCounter := by
  unfold pressDriveS2
  split
  · rfl
  · split
    · rfl
    · rw [pressStartRelayS2_counter]
      rfl

theorem releaseFinish_counter (cfg : Config) (now : Nat) (s : State) :
    (releaseFinish cfg now s).manualSetupModeCounter = s.manualSetupModeCounter := by
  unfold releaseFinish
  split
  · rfl
  · split
    · rw [stopL2_counter, stopL1_counter]
    · rfl

theorem releaseFinish_requests (cfg : Config) (now : Nat) (s : State) :
    (releaseFinish cfg now s).setupRequests = s.setupRequests := by
  unfold releaseFinish
  split
  · rfl
  · split
    · rw [stopL2_requests, stopL1_requests]
    · rfl

theorem releaseSetupCheck_counter (s : State) :
    (releaseSetupCheck s).manualSetupModeCounter = s.manualSetupModeCounter := by
  unfold releaseSetupCheck
  split
  · exact startWifiManagerOnDemand_counter s
  · rfl

/-- The tap counter after a release that ends an active manual override:
incremented on a quick release, reset to zero otherwise. -/
theorem releaseTick_counter (cfg : Config) (now d : Nat) (s : State)
    (hm : s.manualMode = true) :
    (releaseTick cfg now d s).manualSetupModeCounter =
      if d < MANUAL_LOCK_MAX_DELAY_MS then s.manualSetupModeCounter + 1 else 0 := by
  unfold releaseTick
  rw [if_pos hm]
  show (releaseFinish cfg now _).manualSetupModeCounter = _
  rw [releaseFinish_counter]
  show (releaseCount d s).manualSetupModeCounter = _
  unfold releaseCount
  split
  · rw [releaseSetupCheck_counter]
  · rfl

theorem startWifiManagerOnDemand_requests (s : State)
    (hrun : s.wifiManagerSetupRunning = false) :
    (startWifiManagerOnDemand s).setupRequests = s.setupRequests + 1 := by
  unfold startWifiManagerOnDemand
  rw [if_neg (by simp [hrun])]

/-- The enter-setup request counter after a quick release: it is bumped by one
exactly when the tap counter lands exactly on `MANUAL_SETUP_COUNTER`. -/
theorem releaseTick_requests (cfg : Config) (now d : Nat) (s : State)
    (hm : s.manualMode = true) (hrun : s.wifiManagerSetupRunning = false)
    (h5 : d < MANUAL_LOCK_MAX_DELAY_MS) :
    (s.manualSetupModeCounter + 1 = MANUAL_SETUP_COUNTER →
      (releaseTick cfg now d s).setupRequests = s.setupRequests + 1) ∧
    (s.manualSetupModeCounter + 1 ≠ MANUAL_SETUP_COUNTER →
      (releaseTick cfg now d s).setupRequests = s.setupRequests) := by
  constructor
  · intro hc
    unfold releaseTick
    rw [if_pos hm]
    show (releaseFinish cfg now _).setupRequests = _
    rw [releaseFinish_requests]
    show (releaseCount d s).setupRequests = _
    unfold releaseCount
    rw [if_pos h5]
    unfold releaseSetupCheck
    rw [if_pos
      (show ({ s with manualSetupModeCounter := s.manualSetupModeCounter + 1 } :
        State).manualSetupModeCounter = MANUAL_SETUP_COUNTER from hc)]
    exact startWifiManagerOnDemand_requests _ hrun
  · intro hc
    unfold releaseTick
    rw [if_pos hm]
    show (releaseFinish cfg now _).setupRequests = _
    rw [releaseFinish_requests]
    show (releaseCount d s).setupRequests = _
    unfold releaseCount
    rw [if_pos h5]
    unfold releaseSetupCheck
    rw [if_neg
      (show ¬({ s with manualSetupModeCounter := s.manualSetupModeCounter + 1 } :
        State).manualSetupModeCounter = MANUAL_SETUP_COUNTER from hc)]

/-! ### Claim theorems -/

/-- C1: for every sequence of relay activations and deactivations, at no
instant are both direction relays energized.  The first conjunct is the global
invariant over all reachable states; the second and third conjuncts capture the
transient safety inside `startL1`/`startL2` themselves: `startL1` is by
definition a record update of `stopL2 cfg now s`, and `stopL2` already has the
opposing relay de-energized (while leaving L1 as it was), so L1 is only ever
energized in a state whose L2 relay is off — the both-relays-on state is
unreachable even between the two hardware writes (symmetrically for
`startL2`/`stopL1`). -/
theorem c1_relay_mutual_exclusion (cfg : Config) :
    (∀ s : State, Reach cfg s → ¬(s.relayL1 = true ∧ s.relayL2 = true)) ∧
    (∀ (now : Nat) (s : State),
      (stopL2 cfg now s).relayL2 = false ∧ (stopL2 cfg now s).relayL1 = s.relayL1) ∧
    (∀ (now : Nat) (s : State),
      (stopL1 cfg now s).relayL1 = false ∧ (stopL1 cfg now s).relayL2 = s.relayL2) := by
  refine ⟨?_, ?_, ?_⟩
  · intro s hs hc
    rcases (reach_inv hs).1 with h | h
    · rw [hc.1] at h
      exact Bool.noConfusion h
    · rw [hc.2] at h
      exact Bool.noConfusion h
  · exact fun now s => ⟨stopL2_relayL2 cfg now s, stopL2_relayL1 cfg now s⟩
  · exact fun now s => ⟨stopL1_relayL1 cfg now s, stopL1_relayL2 cfg now s⟩

/-- Witness for C1 at the boot state. -/
theorem c1_relay_mutual_exclusion_witness :
    ¬((initState false false).relayL1 = true ∧ (initState false false).relayL2 = true) :=
  (c1_relay_mutual_exclusion cfg0).1 _ (Reach.boot false false)

/-- C2: the position estimate starts at 0 at boot and stays inside
`[0, blindMaxPos]` in every reachable state (each `updateBlindPos` clamps
before storing/publishing). -/
theorem c2_position_clamp_invariant (cfg : Config) :
    (∀ sw1 sw2 : Bool, (initState sw1 sw2).blindPos = 0) ∧
    (∀ s : State, Reach cfg s →
      0 ≤ s.blindPos ∧ s.blindPos ≤ (cfg.blindMaxPos : Int)) :=
  ⟨fun _ _ => rfl, fun _ hs => (reach_inv hs).2.1⟩

/-- Witness for C2 at the boot state. -/
theorem c2_position_clamp_invariant_witness :
    0 ≤ (initState false false).blindPos ∧
      (initState false false).blindPos ≤ (cfg0.blindMaxPos : Int) :=
  (c2_position_clamp_invariant cfg0).2 _ (Reach.boot false false)

/-- C9: deactivating a direction that is not the currently active movement
direction only writes the (already low) relay pin: the whole movement state
(`movementProgress`, `movementL1`, `movementStartTime`, `movementTimeout`) and
the position are untouched, so such a stop is an idempotent no-op on the
movement/position state. -/
theorem c9_idle_stop_noop (cfg : Config) (now : Nat) (s : State) :
    (¬(s.movementProgress = true ∧ s.movementL1 = true) →
      stopL1 cfg now s = { s with relayL1 := false }) ∧
    (¬(s.movementProgress = true ∧ s.movementL1 = false) →
      stopL2 cfg now s = { s with relayL2 := false }) :=
  ⟨stopL1_not_active cfg now s, stopL2_not_active cfg now s⟩

/-- Witness for C9: stopping either direction in the idle boot state. -/
theorem c9_idle_stop_noop_witness :
    stopL1 cfg0 0 (initState false false) = { initState false false with relayL1 := false } ∧
    stopL2 cfg0 0 (initState false false) = { initState false false with relayL2 := false } :=
  ⟨(c9_idle_stop_noop cfg0 0 (initState false false)).1 (by decide),
   (c9_idle_stop_noop cfg0 0 (initState false false)).2 (by decide)⟩

/-- C3: while the manual override is active (`manualMode`), processing any
`mva` or `mvr` command is a complete no-op: the in-progress-movement
cancellation is skipped (its guard requires `manualMode == false`) and
`autoMoveToPos` returns immediately, so the whole state — movement fields,
position, relays, and even the publish log — is unchanged. -/
theorem c3_override_blocks_remote (cfg : Config) (now : Nat) (payload : List Char)
    (s : State) (hm : s.manualMode = true)
    (hp : payload.take 3 = CMD_MOVE_ABS ∨ payload.take 3 = CMD_MOVE_REL) :
    mqttCallback cfg now payload s = s := by
  have ht : (payload.take 9).take 3 = payload.take 3 := by
    rw [List.take_take]
    norm_num
  have hrs : remoteStop cfg now s = s := by
    unfold remoteStop
    rw [if_neg]
    intro hc
    rw [hm] at hc
    exact Bool.noConfusion hc.2
  have hauto : ∀ p : Int, autoMoveToPos cfg now p s = s := by
    intro p
    unfold autoMoveToPos
    rw [if_pos hm]
  unfold mqttCallback
  rw [ht]
  rcases hp with hp | hp
  · rw [hp]
    rw [if_neg (by decide), if_pos rfl, hrs, hauto]
  · rw [hp]
    rw [if_neg (by decide), if_neg (by decide), if_pos rfl, hrs, hauto]

/-- Witness for C3: an `mva5` command against an override-active state. -/
theorem c3_override_blocks_remote_witness :
    mqttCallback cfg0 7 ['m', 'v', 'a', '5']
        { initState false false with manualMode := true } =
      { initState false false with manualMode := true } :=
  c3_override_blocks_remote cfg0 7 ['m', 'v', 'a', '5']
    { initState false false with manualMode := true } rfl (Or.inl rfl)

/-- C6: lock gesture, on either switch.  With manual lock enabled, the switch
currently released (`manualMode = false`, not locked), exactly one recorded
tap, and a press of the same switch that is recorded as the gesture activator,
arriving more than 200 ms (debounce) but less than 500 ms after the activator
timestamp (the previous release), the tick only sets `manualLocked` and
`manualMode` and publishes the current position with the manual-override dot —
no relay is energized, no movement is started, and the tap counter and
position are untouched (the result is exactly a three-field record update).
The two conjuncts cover the S1 press branch and the duplicated S2 press
branch. -/
theorem c6_lock_gesture (cfg : Config) (now : Nat) (s : State)
    (hlock : cfg.blindDisableManualLock = false)
    (hml : s.manualLocked = false)
    (hmode : s.manualMode = false)
    (hcnt : s.manualSetupModeCounter = 1)
    (hd1 : MANUAL_LOCK_MIN_DELAY_MS < now - s.manualLockActivatorTime)
    (hd2 : now - s.manualLockActivatorTime < MANUAL_LOCK_MAX_DELAY_MS) :
    (s.manualLockActivatorSwitch = SWITCH_S1 →
      gpioTick cfg now true false s =
        { s with manualLocked := true, manualMode := true,
                 published := (s.blindPos / 1000, true) :: s.published }) ∧
    (s.manualLockActivatorSwitch = SWITCH_S2 →
      gpioTick cfg now false true s =
        { s with manualLocked := true, manualMode := true,
                 published := (s.blindPos / 1000, true) :: s.published }) := by
  constructor
  · intro hsw
    unfold gpioTick
    rw [if_pos hd1, if_pos rfl]
    unfold pressTickS1 pressCounterResetS1
    rw [if_neg (fun hne => hne hsw)]
    unfold pressLock
    rw [if_pos ⟨by simp [hlock], hml, hd2, hcnt⟩]
    unfold pressDriveS1
    rw [if_pos (show (mqttCommunicate
      { s with manualLocked := true, manualMode := true }).manualLocked = true from rfl)]
    rfl
  · intro hsw
    unfold gpioTick
    rw [if_pos hd1, if_neg (by decide), if_pos rfl]
    unfold pressTickS2 pressCounterResetS2
    rw [if_neg (fun hc => by rw [hsw] at hc; exact absurd hc (by decide))]
    unfold pressLock
    rw [if_pos ⟨by simp [hlock], hml, hd2, hcnt⟩]
    unfold pressDriveS2
    rw [if_pos (show (mqttCommunicate
      { s with manualLocked := true, manualMode := true }).manualLocked = true from rfl)]
    rfl

/-- Witness for C6: concrete lock-ready states for both switches, second press
at t = 300 ms. -/
theorem c6_lock_gesture_witness :
    gpioTick cfg0 300 true false
        { initState false false with
            manualSetupModeCounter := 1, manualLockActivatorSwitch := 4,
            blindPos := 30000 } =
      { initState false false with
          manualSetupModeCounter := 1, manualLockActivatorSwitch := 4,
          blindPos := 30000, manualLocked := true, manualMode := true,
          published := (30, true) :: [] } ∧
    gpioTick cfg0 300 false true
        { initState false false with
            manualSetupModeCounter := 1, manualLockActivatorSwitch := 5,
            blindPos := 30000 } =
      { initState false false with
          manualSetupModeCounter := 1, manualLockActivatorSwitch := 5,
          blindPos := 30000, manualLocked := true, manualMode := true,
          published := (30, true) :: [] } := by
  constructor
  · have h := (c6_lock_gesture cfg0 300
      { initState false false with
          manualSetupModeCounter := 1, manualLockActivatorSwitch := 4, blindPos := 30000 }
      rfl rfl rfl rfl (by decide) (by decide)).1 rfl
    simpa using h
  · have h := (c6_lock_gesture cfg0 300
      { initState false false with
          manualSetupModeCounter := 1, manualLockActivatorSwitch := 5, blindPos := 30000 }
      rfl rfl rfl rfl (by decide) (by decide)).2 rfl
    simpa using h

/-- C10: gesture recognition is per-switch.  Whenever a (debounced) press is
detected on a switch different from the recorded gesture activator, the tap
counter ends the tick at 0: the S1 branch resets it explicitly; the S2 branch
resets it when the activator is S1, and in the only other case (no real switch
recorded as activator) the counter is already 0 in every reachable state, by
the gesture invariant.  Hence neither the double-press lock gesture nor the
five-tap setup gesture can be completed across two different switches. -/
theorem c10_cross_switch_reset (cfg : Config) (now : Nat) (s : State)
    (hs : Reach cfg s)
    (hd : MANUAL_LOCK_MIN_DELAY_MS < now - s.manualLockActivatorTime) :
    (s.manualLockActivatorSwitch ≠ SWITCH_S1 →
      (gpioTick cfg now true false s).manualSetupModeCounter = 0) ∧
    (s.manualLockActivatorSwitch ≠ SWITCH_S2 →
      (gpioTick cfg now false true s).manualSetupModeCounter = 0) := by
  constructor
  · intro hsw
    unfold gpioTick
    rw [if_pos hd, if_pos rfl]
    unfold pressTickS1 pressCounterResetS1
    rw [if_pos hsw]
    unfold pressLock
    rw [if_neg (fun hc => absurd (show (0 : Int) = 1 from hc.2.2.2) (by decide))]
    rw [pressDriveS1_counter]
  · intro hsw
    unfold gpioTick
    rw [if_pos hd, if_neg (by decide), if_pos rfl]
    unfold pressTickS2 pressCounterResetS2
    by_cases h4 : s.manualLockActivatorSwitch = SWITCH_S1
    · rw [if_pos h4]
      unfold pressLock
      rw [if_neg (fun hc => absurd (show (0 : Int) = 1 from hc.2.2.2) (by decide))]
      rw [pressDriveS2_counter]
    · have hctr : s.manualSetupModeCounter = 0 := by
        by_contra hne
        rcases (reach_inv hs).2.2.2.1 hne with h | h
        · exact h4 h
        · exact hsw h
      rw [if_neg h4]
      unfold pressLock
      rw [if_neg (fun hc => by rw [hctr] at hc; exact absurd hc.2.2.2 (by decide))]
      rw [pressDriveS2_counter]
      exact hctr

/-- Witness for C10 at the boot state (activator is 0, neither switch). -/
theorem c10_cross_switch_reset_witness :
    (gpioTick cfg0 300 true false (initState false false)).manualSetupModeCounter = 0 ∧
    (gpioTick cfg0 300 false true (initState false false)).manualSetupModeCounter = 0 :=
  ⟨(c10_cross_switch_reset cfg0 300 (initState false false)
      (Reach.boot false false) (by decide)).1 (by decide),
   (c10_cross_switch_reset cfg0 300 (initState false false)
      (Reach.boot false false) (by decide)).2 (by decide)⟩

/-- C8 counterexample: the release at 1700 ms ends an active manual override
(the press at 1400 ms set `manualMode`), and it happens 1100 ms after the
prior release at 600 ms — more than `MAX_DELAY`, so the claim as stated
requires the tap counter to be reset to 0.  The code instead measures from the
activator timestamp, which the press at 1400 ms refreshed, and increments the
counter from 1 to 2. -/
theorem c8_counterexample :
    c8state1.manualMode = true ∧
    c8state2.manualMode = false ∧
    c8state2.manualSetupModeCounter = 1 ∧
    c8state2.manualLockActivatorTime = 600 ∧
    c8state3.manualMode = true ∧
    c8state4.manualMode = false ∧
    c8state4.manualSetupModeCounter = 2 ∧
    ¬(c8state4.manualSetupModeCounter = 0) := by
  decide

/-- C8 as amended: on a release that ends an active manual override (after the
200 ms debounce), the tap counter is incremented exactly when the release
happens within `MAX_DELAY` (500 ms) of the last activator-timestamp update —
that is the press that began this override (or the prior release, when the
press only triggered the lock gesture and left the timestamp untouched) — and
it is reset to 0 otherwise. -/
theorem c8_release_tap_counter (cfg : Config) (now : Nat) (s : State)
    (hm : s.manualMode = true)
    (hd : MANUAL_LOCK_MIN_DELAY_MS < now - s.manualLockActivatorTime) :
    (now - s.manualLockActivatorTime < MANUAL_LOCK_MAX_DELAY_MS →
      (gpioTick cfg now false false s).manualSetupModeCounter =
        s.manualSetupModeCounter + 1) ∧
    (MANUAL_LOCK_MAX_DELAY_MS ≤ now - s.manualLockActivatorTime →
      (gpioTick cfg now false false s).manualSetupModeCounter = 0) := by
  have htick : gpioTick cfg now false false s =
      releaseTick cfg now (now - s.manualLockActivatorTime) s := by
    unfold gpioTick
    rw [if_pos hd, if_neg (by decide), if_neg (by decide)]
  constructor
  · intro h5
    rw [htick, releaseTick_counter cfg now _ s hm, if_pos h5]
  · intro h5
    rw [htick, releaseTick_counter cfg now _ s hm, if_neg (by omega)]

/-- Witness for the amended C8: quick release (300 ms) and slow release
(900 ms) out of a held override at the boot-plus-press state. -/
theorem c8_release_tap_counter_witness :
    (gpioTick cfg0 300 false false
        { initState false false with manualMode := true }).manualSetupModeCounter = 1 ∧
    (gpioTick cfg0 900 false false
        { initState false false with manualMode := true }).manualSetupModeCounter = 0 :=
  ⟨(c8_release_tap_counter cfg0 300
      { initState false false with manualMode := true } rfl (by decide)).1 (by decide),
   (c8_release_tap_counter cfg0 900
      { initState false false with manualMode := true } rfl (by decide)).2 (by decide)⟩

/-- C4 counterexample: after five qualifying quick taps exactly one
enter-setup request has been issued, but the tap counter is 5, not 0 — the
code never resets the counter when the request fires (`++manualSetupModeCounter
== MANUAL_SETUP_COUNTER` has no reset branch), so the second half of the claim
is false. -/
theorem c4_counterexample :
    c4final.setupRequests = 1 ∧
    c4final.manualSetupModeCounter = 5 ∧
    ¬(c4final.manualSetupModeCounter = 0) := by
  decide

/-- C4 as amended: the enter-setup request fires exactly on the quick release
that moves the tap counter from 4 to 5, so five qualifying quick taps issue
exactly one request; the counter is NOT reset by the request — it simply keeps
incrementing on further quick taps (5, 6, ...), and since only the exact
transition to 5 fires, no second request is issued until the counter is reset
by a slow tap or a switch change. -/
theorem c4_setup_gesture_exactly_once (cfg : Config) (now : Nat) (s : State)
    (hm : s.manualMode = true)
    (hrun : s.wifiManagerSetupRunning = false)
    (hd1 : MANUAL_LOCK_MIN_DELAY_MS < now - s.manualLockActivatorTime)
    (hd2 : now - s.manualLockActivatorTime < MANUAL_LOCK_MAX_DELAY_MS) :
    (s.manualSetupModeCounter = 4 →
      (gpioTick cfg now false false s).manualSetupModeCounter = 5 ∧
      (gpioTick cfg now false false s).setupRequests = s.setupRequests + 1) ∧
    (s.manualSetupModeCounter ≠ 4 →
      (gpioTick cfg now false false s).manualSetupModeCounter =
        s.manualSetupModeCounter + 1 ∧
      (gpioTick cfg now false false s).setupRequests = s.setupRequests) := by
  have htick : gpioTick cfg now false false s =
      releaseTick cfg now (now - s.manualLockActivatorTime) s := by
    unfold gpioTick
    rw [if_pos hd1, if_neg (by decide), if_neg (by decide)]
  constructor
  · intro hc
    constructor
    · rw [htick, releaseTick_counter cfg now _ s hm, if_pos hd2, hc]
      decide
    · rw [htick]
      exact (releaseTick_requests cfg now _ s hm hrun hd2).1 (by rw [hc]; decide)
  · intro hc
    constructor
    · rw [htick, releaseTick_counter cfg now _ s hm, if_pos hd2]
    · rw [htick]
      exact (releaseTick_requests cfg now _ s hm hrun hd2).2 (by
        intro h5
        have h5x : s.manualSetupModeCounter + 1 = 5 := h5
        exact hc (by omega))

/-- Witness for the amended C4: release out of a held override with counter 4
(fires, counter 5) and with counter 5 (no request, counter 6). -/
theorem c4_setup_gesture_exactly_once_witness :
    ((gpioTick cfg0 300 false false
        { initState false false with
          manualMode := true, manualSetupModeCounter := 4 }).manualSetupModeCounter = 5 ∧
     (gpioTick cfg0 300 false false
        { initState false false with
          manualMode := true, manualSetupModeCounter := 4 }).setupRequests = 1) ∧
    ((gpioTick cfg0 300 false false
        { initState false false with
          manualMode := true, manualSetupModeCounter := 5 }).manualSetupModeCounter = 6 ∧
     (gpioTick cfg0 300 false false
        { initState false false with
          manualMode := true, manualSetupModeCounter := 5 }).setupRequests = 0) :=
  ⟨(c4_setup_gesture_exactly_once cfg0 300
      { initState false false with manualMode := true, manualSetupModeCounter := 4 }
      rfl rfl (by decide) (by decide)).1 rfl,
   (c4_setup_gesture_exactly_once cfg0 300
      { initState false false with manualMode := true, manualSetupModeCounter := 5 }
      rfl rfl (by decide) (by decide)).2 (by decide)⟩

/-! ### Malformed numeric payloads parse to 0 -/

theorem atoiDigits_not_digit (c : Char) (r : List Char) (acc : Nat)
    (h : c.isDigit = false) : atoiDigits (c :: r) acc = acc := by
  unfold atoiDigits
  rw [if_neg (by simp [h])]

theorem atoiSigned_malformed (t : List Char) (h : malformedHead t = true) :
    atoiSigned t = 0 := by
  cases t with
  | nil => rfl
  | cons c r =>
    simp only [malformedHead] at h
    simp only [atoiSigned]
    by_cases h1 : c = '-' ∨ c = '+'
    · rw [if_pos h1] at h
      rcases h1 with h1 | h1 <;> subst h1
      · rw [if_pos rfl]
        cases r with
        | nil => rfl
        | cons c2 t2 =>
          have hc2 : c2.isDigit = false := by simpa using h
          rw [atoiDigits_not_digit c2 t2 0 hc2]
          rfl
      · rw [if_neg (by decide), if_pos rfl]
        cases r with
        | nil => rfl
        | cons c2 t2 =>
          have hc2 : c2.isDigit = false := by simpa using h
          rw [atoiDigits_not_digit c2 t2 0 hc2]
          rfl
    · rw [if_neg h1] at h
      have hcd : c.isDigit = false := by simpa using h
      rw [if_neg (fun hc => h1 (Or.inl hc)), if_neg (fun hc => h1 (Or.inr hc))]
      rw [atoiDigits_not_digit c r 0 hcd]
      rfl

theorem atoiModel_malformed (cs : List Char) (h : malformedNum cs = true) :
    atoiModel cs = 0 :=
  atoiSigned_malformed _ h

/-! ### Shape of `mqttCallback` on the two move commands -/

theorem mqttCallback_mva (cfg : Config) (now : Nat) (rest : List Char) (s : State) :
    mqttCallback cfg now (CMD_MOVE_ABS ++ rest) s =
      autoMoveToPos cfg now (atoiModel (rest.take 6) * 1000) (remoteStop cfg now s) := by
  have e1 : ((CMD_MOVE_ABS ++ rest).take 9).take 3 = CMD_MOVE_ABS := by
    simp [CMD_MOVE_ABS, List.take_succ_cons]
  have e2 : ((CMD_MOVE_ABS ++ rest).take 9).drop 3 = rest.take 6 := by
    simp [CMD_MOVE_ABS, List.take_succ_cons, List.drop_succ_cons]
  unfold mqttCallback
  rw [e1, e2, if_neg (by decide), if_pos rfl]

theorem mqttCallback_mvr (cfg : Config) (now : Nat) (rest : List Char) (s : State) :
    mqttCallback cfg now (CMD_MOVE_REL ++ rest) s =
      autoMoveToPos cfg now
        ((remoteStop cfg now s).blindPos + atoiModel (rest.take 6) * 1000)
        (remoteStop cfg now s) := by
  have e1 : ((CMD_MOVE_REL ++ rest).take 9).take 3 = CMD_MOVE_REL := by
    simp [CMD_MOVE_REL, List.take_succ_cons]
  have e2 : ((CMD_MOVE_REL ++ rest).take 9).drop 3 = rest.take 6 := by
    simp [CMD_MOVE_REL, List.take_succ_cons, List.drop_succ_cons]
  unfold mqttCallback
  rw [e1, e2, if_neg (by decide), if_neg (by decide), if_pos rfl]

/-- C5 counterexample: the worst-case effect of a malformed payload is not a
no-op move.  The malformed payload `xy` parses to 0; an `mvaxy` received in an
idle, non-override state at position 30000 therefore targets position 0 and
energizes relay L1 for 30000 ms — a real movement, and a changed state.
Likewise an `mvrxy` received while a remote movement is in progress (the
reachable state right after `mva61` at boot) cancels that movement and moves
the position estimate from 0 to 5000. -/
theorem c5_counterexample :
    atoiModel ['x', 'y'] = 0 ∧
    (mqttCallback cfg0 0 (CMD_MOVE_ABS ++ ['x', 'y']) c5idle).movementProgress = true ∧
    (mqttCallback cfg0 0 (CMD_MOVE_ABS ++ ['x', 'y']) c5idle).relayL1 = true ∧
    (mqttCallback cfg0 0 (CMD_MOVE_ABS ++ ['x', 'y']) c5idle).movementTimeout = 30000 ∧
    ¬(mqttCallback cfg0 0 (CMD_MOVE_ABS ++ ['x', 'y']) c5idle = c5idle) ∧
    c5moving.movementProgress = true ∧
    c5moving.manualMode = false ∧
    (mqttCallback cfg0 5000 (CMD_MOVE_REL ++ ['x', 'y']) c5moving).movementProgress = false ∧
    (mqttCallback cfg0 5000 (CMD_MOVE_REL ++ ['x', 'y']) c5moving).blindPos = 5000 ∧
    ¬(mqttCallback cfg0 5000 (CMD_MOVE_REL ++ ['x', 'y']) c5moving = c5moving) := by
  decide

/-- C5 as amended: error containment for numeric payloads.  A malformed
payload parses to 0 (first conjunct), and the command has exactly the effect
of the corresponding legitimate command with payload `0` (second and third
conjuncts); only for `mvr` from an idle non-override state does that make the
whole command a strict no-op (fourth conjunct).  Out-of-range targets are
absorbed by the position-model clamp: every position update lands in
`[0, blindMaxPos]` (last conjuncts).  The worst case is NOT a no-op in
general — see the counterexample: a malformed `mva` drives a real movement to
position 0, and a malformed command arriving during a non-manual movement
cancels that movement. -/
theorem c5_malformed_payload_safe (cfg : Config) (now : Nat) (s : State)
    (rest : List Char) (hm : malformedNum rest = true) (hlen : rest.length ≤ 6) :
    atoiModel rest = 0 ∧
    mqttCallback cfg now (CMD_MOVE_REL ++ rest) s =
      mqttCallback cfg now (CMD_MOVE_REL ++ ['0']) s ∧
    mqttCallback cfg now (CMD_MOVE_ABS ++ rest) s =
      mqttCallback cfg now (CMD_MOVE_ABS ++ ['0']) s ∧
    (s.manualMode = false → s.movementProgress = false →
      mqttCallback cfg now (CMD_MOVE_REL ++ rest) s = s) ∧
    0 ≤ (updateBlindPos cfg now s).blindPos ∧
    (updateBlindPos cfg now s).blindPos ≤ (cfg.blindMaxPos : Int) := by
  have htake : rest.take 6 = rest := List.take_of_length_le hlen
  have hz : atoiModel (rest.take 6) = 0 := by
    rw [htake]
    exact atoiModel_malformed rest hm
  have hz0 : atoiModel (List.take 6 ['0']) = 0 := by decide
  refine ⟨atoiModel_malformed rest hm, ?_, ?_, ?_, ?_, ?_⟩
  · rw [mqttCallback_mvr, mqttCallback_mvr, hz, hz0]
  · rw [mqttCallback_mva, mqttCallback_mva, hz, hz0]
  · intro hmode hprog
    have hrs : remoteStop cfg now s = s := by
      unfold remoteStop
      rw [if_neg (fun hc => by rw [hprog] at hc; exact Bool.noConfusion hc.1)]
    rw [mqttCallback_mvr, hz, hrs]
    unfold autoMoveToPos
    rw [if_neg (fun hc => by rw [hmode] at hc; exact Bool.noConfusion hc)]
    have hδ : s.blindPos + 0 * 1000 - s.blindPos = 0 := by ring
    rw [hδ]
    norm_num
  · exact (clampPos_bounds cfg _).1
  · exact (clampPos_bounds cfg _).2

/-- Witness for C5: the malformed payload `xy`. -/
theorem c5_malformed_payload_safe_witness :
    atoiModel ['x', 'y'] = 0 ∧
    mqttCallback cfg0 5 (CMD_MOVE_REL ++ ['x', 'y']) (initState false false) =
      initState false false := by
  have h := c5_malformed_payload_safe cfg0 5 (initState false false) ['x', 'y']
    (by decide) (by decide)
  exact ⟨h.1, h.2.2.2.1 rfl rfl⟩

/-! ### Overshoot move and timeout recovery -/

theorem overshoot_core (cfg : Config) (t1 : Nat) (s : State) (target : Int)
    (hm : s.manualMode = false) (hhi : s.blindPos < target) :
    autoMoveToPos cfg t1 target s =
      (if cfg.blindInvertZero then startL1 cfg t1 (target - s.blindPos).toNat s
       else startL2 cfg t1 (target - s.blindPos).toNat s) := by
  unfold autoMoveToPos
  rw [if_neg (fun hc => by rw [hm] at hc; exact Bool.noConfusion hc)]
  split
  · rw [if_pos (by omega)]
  · rw [if_pos (by omega)]

theorem startL1_idle (cfg : Config) (t1 n : Nat) (s : State)
    (hp : s.movementProgress = false) :
    startL1 cfg t1 n s =
      { s with relayL2 := false, relayL1 := true, movementProgress := true,
               movementL1 := true, movementStartTime := t1,
               movementTimeout := if n = 0 then cfg.blindMaxPos else n } := by
  unfold startL1
  rw [stopL2_not_active cfg t1 s (fun hc => by rw [hp] at hc; exact Bool.noConfusion hc.1)]

theorem startL2_idle (cfg : Config) (t1 n : Nat) (s : State)
    (hp : s.movementProgress = false) :
    startL2 cfg t1 n s =
      { s with relayL1 := false, relayL2 := true, movementProgress := true,
               movementL1 := false, movementStartTime := t1,
               movementTimeout := if n = 0 then cfg.blindMaxPos else n } := by
  unfold startL2
  rw [stopL1_not_active cfg t1 s (fun hc => by rw [hp] at hc; exact Bool.noConfusion hc.1)]

theorem movementTick_pending (cfg : Config) (t2 : Nat) (s1 : State)
    (h : t2 - s1.movementStartTime < s1.movementTimeout) :
    movementTick cfg t2 s1 = s1 := by
  unfold movementTick
  rw [if_neg (fun hc => absurd hc.2 (by omega))]

theorem movementTick_expired (cfg : Config) (t2 : Nat) (s1 : State)
    (hprog : s1.movementProgress = true)
    (hts : s1.movementTimeout ≤ t2 - s1.movementStartTime) :
    movementTick cfg t2 s1 = stopL2 cfg t2 (stopL1 cfg t2 s1) := by
  unfold movementTick
  rw [if_pos ⟨hprog, hts⟩]

theorem stop_both_running_L1 (cfg : Config) (t2 : Nat) (s1 : State)
    (hprog : s1.movementProgress = true) (hL1 : s1.movementL1 = true) :
    stopL2 cfg t2 (stopL1 cfg t2 s1) =
      { updateBlindPos cfg t2 { s1 with relayL1 := false, movementProgress := false } with
          relayL2 := false } := by
  unfold stopL1
  rw [if_pos (by simp [hprog, hL1])]
  rw [stopL2_not_active cfg t2 _
    (fun hc => Bool.noConfusion (show false = true from hc.1))]

theorem stop_both_running_L2 (cfg : Config) (t2 : Nat) (s1 : State)
    (hprog : s1.movementProgress = true) (hL1 : s1.movementL1 = false) :
    stopL2 cfg t2 (stopL1 cfg t2 s1) =
      updateBlindPos cfg t2
        { s1 with relayL1 := false, relayL2 := false, movementProgress := false } := by
  rw [stopL1_not_active cfg t2 s1 (fun hc => by rw [hL1] at hc; exact Bool.noConfusion hc.2)]
  unfold stopL2
  rw [if_pos (by simp [hprog, hL1])]

theorem updateBlindPos_overshoot (cfg : Config) (now : Nat) (s2 : State)
    (hdir : (s2.movementL1 = true ∧ cfg.blindInvertZero = true) ∨
            (s2.movementL1 = false ∧ cfg.blindInvertZero = false))
    (hbig : (cfg.blindMaxPos : Int) ≤
      s2.blindPos + ((now - s2.movementStartTime : Nat) : Int)) :
    (updateBlindPos cfg now s2).blindPos = (cfg.blindMaxPos : Int) := by
  have hmoved : movedPos cfg (now - s2.movementStartTime) s2 =
      s2.blindPos + ((now - s2.movementStartTime : Nat) : Int) := by
    unfold movedPos
    rcases hdir with ⟨h1, h2⟩ | ⟨h1, h2⟩
    · rw [if_pos h1, if_pos h2]
    · rw [if_neg (by simp [h1]), if_neg (by simp [h2])]
  show clampPos cfg (movedPos cfg (now - s2.movementStartTime) s2) = _
  rw [hmoved]
  unfold clampPos
  split
  · omega
  · split
    · rfl
    · omega

/-- C7: timeout overshoot recovery.  With the override inactive and the
controller idle, a move-absolute command whose parsed target is
`blindMaxPos + 1000` energizes the toward-max relay (L2, or L1 when the zero
direction is inverted) with a deadline of exactly
`blindMaxPos + 1000 - blindPos` time-units: the movement supervisor leaves the
relay energized at every poll strictly before the deadline, and at any poll at
or past it stops the relay and the position-model clamp sets the final
position to exactly `blindMaxPos`. -/
theorem c7_timeout_overshoot (cfg : Config) (t1 : Nat) (s : State) (rest : List Char)
    (hm : s.manualMode = false) (hp : s.movementProgress = false)
    (hlo : 0 ≤ s.blindPos) (hhi : s.blindPos ≤ (cfg.blindMaxPos : Int))
    (hlen : rest.length ≤ 6)
    (ha : atoiModel rest * 1000 = (cfg.blindMaxPos : Int) + 1000) :
    ∀ s1, s1 = mqttCallback cfg t1 (CMD_MOVE_ABS ++ rest) s →
      (s1.movementProgress = true ∧ s1.movementL1 = cfg.blindInvertZero ∧
       s1.relayL1 = cfg.blindInvertZero ∧ s1.relayL2 = !cfg.blindInvertZero ∧
       s1.movementStartTime = t1 ∧ s1.blindPos = s.blindPos ∧
       (s1.movementTimeout : Int) = (cfg.blindMaxPos : Int) + 1000 - s.blindPos) ∧
      (∀ t2, t2 - t1 < s1.movementTimeout → movementTick cfg t2 s1 = s1) ∧
      (∀ t2, s1.movementTimeout ≤ t2 - t1 →
        (movementTick cfg t2 s1).blindPos = (cfg.blindMaxPos : Int) ∧
        (movementTick cfg t2 s1).movementProgress = false ∧
        (movementTick cfg t2 s1).relayL1 = false ∧
        (movementTick cfg t2 s1).relayL2 = false) := by
  intro s1 hs1
  have htake : rest.take 6 = rest := List.take_of_length_le hlen
  have hrs : remoteStop cfg t1 s = s := by
    unfold remoteStop
    rw [if_neg (fun hc => by rw [hp] at hc; exact Bool.noConfusion hc.1)]
  have hδ : s.blindPos < (cfg.blindMaxPos : Int) + 1000 := by omega
  have hcall : s1 =
      (if cfg.blindInvertZero then
        startL1 cfg t1 (((cfg.blindMaxPos : Int) + 1000) - s.blindPos).toNat s
      else
        startL2 cfg t1 (((cfg.blindMaxPos : Int) + 1000) - s.blindPos).toNat s) := by
    rw [hs1, mqttCallback_mva, hrs, htake, ha, overshoot_core cfg t1 s _ hm hδ]
  have hn : ¬((((cfg.blindMaxPos : Int) + 1000) - s.blindPos).toNat = 0) := by omega
  cases hz : cfg.blindInvertZero
  case true =>
    rw [if_pos hz, startL1_idle cfg t1 _ s hp, if_neg hn] at hcall
    have htoInt : (((((cfg.blindMaxPos : Int) + 1000) - s.blindPos).toNat : Nat) : Int) =
        ((cfg.blindMaxPos : Int) + 1000) - s.blindPos :=
      Int.toNat_of_nonneg (by omega)
    refine ⟨?_, ?_, ?_⟩
    · rw [hcall]
      exact ⟨rfl, rfl, rfl, rfl, rfl, rfl, htoInt⟩
    · intro t2 ht2
      rw [hcall] at ht2 ⊢
      exact movementTick_pending cfg t2 _ ht2
    · intro t2 ht2
      rw [hcall] at ht2 ⊢
      have ht2x : ((((cfg.blindMaxPos : Int) + 1000) - s.blindPos).toNat : Nat) ≤
          t2 - t1 := ht2
      rw [movementTick_expired cfg t2 _ rfl ht2x]
      rw [stop_both_running_L1 cfg t2 _ rfl rfl]
      refine ⟨?_, rfl, rfl, rfl⟩
      show (updateBlindPos cfg t2 _).blindPos = _
      exact updateBlindPos_overshoot cfg t2 _ (Or.inl ⟨rfl, hz⟩)
        (show (cfg.blindMaxPos : Int) ≤ s.blindPos + ((t2 - t1 : Nat) : Int) by omega)
  case false =>
    rw [if_neg (by rw [hz]; exact Bool.noConfusion), startL2_idle cfg t1 _ s hp,
      if_neg hn] at hcall
    have htoInt : (((((cfg.blindMaxPos : Int) + 1000) - s.blindPos).toNat : Nat) : Int) =
        ((cfg.blindMaxPos : Int) + 1000) - s.blindPos :=
      Int.toNat_of_nonneg (by omega)
    refine ⟨?_, ?_, ?_⟩
    · rw [hcall]
      exact ⟨rfl, rfl, rfl, rfl, rfl, rfl, htoInt⟩
    · intro t2 ht2
      rw [hcall] at ht2 ⊢
      exact movementTick_pending cfg t2 _ ht2
    · intro t2 ht2
      rw [hcall] at ht2 ⊢
      have ht2x : ((((cfg.blindMaxPos : Int) + 1000) - s.blindPos).toNat : Nat) ≤
          t2 - t1 := ht2
      rw [movementTick_expired cfg t2 _ rfl ht2x]
      rw [stop_both_running_L2 cfg t2 _ rfl rfl]
      refine ⟨?_, rfl, rfl, rfl⟩
      exact updateBlindPos_overshoot cfg t2 _ (Or.inr ⟨rfl, hz⟩)
        (show (cfg.blindMaxPos : Int) ≤ s.blindPos + ((t2 - t1 : Nat) : Int) by omega)

/-- Witness for C7: `mva61` against the default 60-second configuration from
position 0; the relay runs for 61000 ms and the final position is clamped to
60000. -/
theorem c7_timeout_overshoot_witness :
    (mqttCallback cfg0 0 (CMD_MOVE_ABS ++ ['6', '1'])
        (initState false false)).movementTimeout = 61000 ∧
    (movementTick cfg0 61000
        (mqttCallback cfg0 0 (CMD_MOVE_ABS ++ ['6', '1'])
          (initState false false))).blindPos = (cfg0.blindMaxPos : Int) ∧
    (movementTick cfg0 61000
        (mqttCallback cfg0 0 (CMD_MOVE_ABS ++ ['6', '1'])
          (initState false false))).movementProgress = false := by
  have h := c7_timeout_overshoot cfg0 0 (initState false false) ['6', '1']
    rfl rfl (by decide) (by decide) (by decide) (by decide) _ rfl
  have hlate := h.2.2 61000 (by decide)
  exact ⟨by decide, hlate.1, hlate.2.1⟩

end Dorfl
